import Mathlib

/-!
Shallow embedding of `src/financial_calculator.py` (financial-calculator-mlops).

Numeric values are modelled in exact arithmetic: rational inputs/outputs
(`ℚ`) for the functions whose formulas are rational, and `ℝ` where the
source applies a fractional power or a square root.  Python's
`raise ValueError(msg)` is modelled as `Except.error (.invalidArgument msg)`.
Python's `round(x, 2)` (round-half-to-even to 2 decimal places) is
modelled by `round2` / `round2R`.
-/

namespace FinCalc

/-- The single error kind of the library: Python's `ValueError`. -/
inductive FinError where
  | invalidArgument (msg : String)
deriving DecidableEq, Repr

/-- Whether a call failed (raised) rather than returned. -/
def fails {α : Type _} : Except FinError α → Bool
  | .error _ => true
  | .ok _ => false

instance {ε α : Type _} [DecidableEq ε] [DecidableEq α] : DecidableEq (Except ε α)
  | .error a, .error b =>
      if h : a = b then .isTrue (by rw [h]) else .isFalse (by simp [h])
  | .error _, .ok _ => .isFalse (by simp)
  | .ok _, .error _ => .isFalse (by simp)
  | .ok a, .ok b =>
      if h : a = b then .isTrue (by rw [h]) else .isFalse (by simp [h])

/-- Round-half-to-even to the nearest integer (Python's `round`). -/
def rhe (q : ℚ) : ℤ :=
  let f : ℤ := ⌊q⌋
  if q - f < 1/2 then f
  else if 1/2 < q - f then f + 1
  else if 2 ∣ f then f else f + 1

/-- Python's `round(x, 2)` on an exact rational. -/
def round2 (q : ℚ) : ℚ := (rhe (q * 100) : ℚ) / 100

/-- Round-half-to-even to the nearest integer, on `ℝ`. -/
noncomputable def rheR (x : ℝ) : ℤ :=
  let f : ℤ := ⌊x⌋
  if x - f < 1/2 then f
  else if 1/2 < x - f then f + 1
  else if 2 ∣ f then f else f + 1

/-- Python's `round(x, 2)` on a real value. -/
noncomputable def round2R (x : ℝ) : ℝ := (rheR (x * 100) : ℝ) / 100

/-- `monthly_payment(principal, rate, years)` from the source
(`years : int` per the declared signature; the power `(1+r)^n` has an
integer exponent, so the whole computation is rational). -/
def monthly_payment (principal rate : ℚ) (years : ℤ) : Except FinError ℚ :=
  if principal ≤ 0 ∨ rate < 0 ∨ years ≤ 0 then
    .error (.invalidArgument "Principal and years must be positive, rate non-negative")
  else if rate = 0 then
    .ok (round2 (principal / ((years : ℚ) * 12)))
  else
    let monthly_rate : ℚ := rate / 12
    let num_payments : ℤ := years * 12
    .ok (round2 (principal * (monthly_rate * (1 + monthly_rate) ^ num_payments) /
      ((1 + monthly_rate) ^ num_payments - 1)))

/-- `future_value_annuity(payment, rate, periods)` from the source
(`periods : int` per the declared signature). -/
def future_value_annuity (payment rate : ℚ) (periods : ℤ) : Except FinError ℚ :=
  if payment < 0 ∨ rate < 0 ∨ periods < 0 then
    .error (.invalidArgument "All values must be non-negative")
  else if rate = 0 then
    .ok (round2 (payment * (periods : ℚ)))
  else
    .ok (round2 (payment * (((1 + rate) ^ periods - 1) / rate)))

/-- `compound_interest(principal, rate, time, n)` from the source.  At
runtime Python checks only that `principal`, `rate`, `time` are numbers
(always true here, where they are `ℚ`) and the sign conditions of line 28;
`n` is applied as given, so the exponent `n * time` may be fractional and
the power is a real power. -/
noncomputable def compound_interest (principal rate time n : ℚ) : Except FinError ℝ :=
  if principal < 0 ∨ rate < 0 ∨ time < 0 ∨ n ≤ 0 then
    .error (.invalidArgument "Values must be non-negative, n must be positive")
  else
    .ok (round2R ((principal : ℝ) * ((1 + rate / n : ℚ) : ℝ) ^ ((n * time : ℚ) : ℝ)))

/-- `investment_return(initial, final, years)` from the source (the
exponent `1/years` is fractional, so the power is a real power). -/
noncomputable def investment_return (initial fin years : ℚ) : Except FinError ℝ :=
  if initial ≤ 0 ∨ fin ≤ 0 ∨ years ≤ 0 then
    .error (.invalidArgument "All values must be positive")
  else
    .ok (round2R ((((fin / initial : ℚ) : ℝ) ^ (((1 : ℚ) / years : ℚ) : ℝ) - 1) * 100))

/-- An element of the `investments` list: a dict with both required keys
present and numeric (the shape the per-element checks of lines 97-106
enforce; in this typed embedding those checks always pass). -/
structure Investment where
  amount : ℚ
  return_rate : ℚ
deriving DecidableEq, Repr

/-- The result dict of `portfolio_value`. -/
structure PortfolioResult where
  total_value : ℚ
  weighted_avg_return : ℚ
deriving DecidableEq, Repr

/-- The `for investment in investments` loop of lines 96-111: accumulates
`(total_value, weighted_return)` and raises on the first negative amount. -/
def portfolioScan : List Investment → ℚ × ℚ → Except FinError (ℚ × ℚ)
  | [], acc => .ok acc
  | inv :: rest, acc =>
    if inv.amount < 0 then .error (.invalidArgument "Investment amount cannot be negative")
    else portfolioScan rest (acc.1 + inv.amount, acc.2 + inv.amount * inv.return_rate)

/-- `portfolio_value(investments)` from the source. -/
def portfolio_value (investments : List Investment) : Except FinError PortfolioResult :=
  if investments = [] then
    .error (.invalidArgument "Investments must be a non-empty list")
  else
    match portfolioScan investments (0, 0) with
    | .error e => .error e
    | .ok (total_value, weighted_return) =>
      if total_value = 0 then .ok ⟨0, 0⟩
      else .ok ⟨round2 total_value, round2 (weighted_return / total_value)⟩

/-- The result dict of `risk_assessment`.  `volatility` and the Sharpe
field are real valued (a square root is taken). -/
structure RiskResult where
  mean_return : ℝ
  volatility : ℝ
  sharpe_ratio : ℝ

/-- `risk_assessment(returns)` from the source.  The mean and the variance
are exact rationals; the volatility is their real square root. -/
noncomputable def risk_assessment (returns : List ℚ) : Except FinError RiskResult :=
  if returns = [] then
    .error (.invalidArgument "Returns must be a non-empty list")
  else
    let n : ℕ := returns.length
    let mean : ℚ := returns.sum / (n : ℚ)
    let variance : ℚ :=
      if 1 < n then ((returns.map (fun r => (r - mean) ^ 2)).sum) / ((n : ℚ) - 1) else 0
    let volatility : ℝ := Real.sqrt (variance : ℝ)
    let sharpe : ℝ := if volatility ≠ 0 then (mean : ℝ) / volatility else 0
    .ok ⟨((round2 mean : ℚ) : ℝ), round2R volatility, round2R sharpe⟩

/-- A Python runtime value passed to the legacy helpers: an int, a float
(exact rational in this embedding), or a non-numeric value such as a
string or `None`. -/
inductive PyVal where
  | int (n : ℤ)
  | float (q : ℚ)
  | str (s : String)
  | none
deriving DecidableEq, Repr

/-- Python's `isinstance(x, (int, float))`. -/
def PyVal.isNumber : PyVal → Bool
  | .int _ => true
  | .float _ => true
  | _ => false

/-- The exact numeric value a `PyVal` denotes (0 for non-numbers). -/
def PyVal.toRat : PyVal → ℚ
  | .int n => (n : ℚ)
  | .float q => q
  | _ => 0

def PyVal.isInt : PyVal → Bool
  | .int _ => true
  | _ => false

def PyVal.isFloat : PyVal → Bool
  | .float _ => true
  | _ => false

/-- Python's numeric `x + y`: int + int is an int, any float makes a float. -/
def pyAdd : PyVal → PyVal → PyVal
  | .int a, .int b => .int (a + b)
  | .int a, .float q => .float ((a : ℚ) + q)
  | .float p, .int b => .float (p + (b : ℚ))
  | .float p, .float q => .float (p + q)
  | _, _ => .none

/-- Python's numeric `x - y`: int - int is an int, any float makes a float. -/
def pySub : PyVal → PyVal → PyVal
  | .int a, .int b => .int (a - b)
  | .int a, .float q => .float ((a : ℚ) - q)
  | .float p, .int b => .float (p - (b : ℚ))
  | .float p, .float q => .float (p - q)
  | _, _ => .none

/-- `add_numbers(x, y)` from the source. -/
def add_numbers (x y : PyVal) : Except FinError PyVal :=
  if PyVal.isNumber x && PyVal.isNumber y then .ok (pyAdd x y)
  else .error (.invalidArgument "Both inputs must be numbers.")

/-- `subtract_numbers(x, y)` from the source. -/
def subtract_numbers (x y : PyVal) : Except FinError PyVal :=
  if PyVal.isNumber x && PyVal.isNumber y then .ok (pySub x y)
  else .error (.invalidArgument "Both inputs must be numbers.")

/-! ### Helper lemmas -/

lemma round2_zero : round2 0 = 0 := by with_unfolding_all rfl

lemma round2R_zero : round2R 0 = 0 := by norm_num [round2R, rheR]

lemma portfolioScan_negAmount (l : List Investment) :
    ∀ acc : ℚ × ℚ, (∃ inv ∈ l, inv.amount < 0) →
      portfolioScan l acc = .error (.invalidArgument "Investment amount cannot be negative") := by
  induction l with
  | nil => rintro acc ⟨inv, h, -⟩; exact absurd h (List.not_mem_nil inv)
  | cons i rest ih =>
    rintro acc ⟨inv, hmem, hneg⟩
    by_cases hi : i.amount < 0
    · simp [portfolioScan, hi]
    · rcases List.mem_cons.1 hmem with rfl | hm
      · exact absurd hneg hi
      · simp only [portfolioScan, if_neg hi]
        exact ih _ ⟨inv, hm, hneg⟩

lemma portfolioScan_allZero (l : List Investment) :
    ∀ acc : ℚ × ℚ, (∀ inv ∈ l, inv.amount = 0) → portfolioScan l acc = .ok acc := by
  induction l with
  | nil => intro acc _; rfl
  | cons i rest ih =>
    intro acc h
    have hi : i.amount = 0 := h i (List.mem_cons_self i rest)
    have hacc : (acc.1 + i.amount, acc.2 + i.amount * i.return_rate) = acc := by
      rw [hi]; simp
    simp only [portfolioScan, if_neg (by rw [hi]; exact lt_irrefl 0 : ¬ i.amount < 0), hacc]
    exact ih _ (fun inv hm => h inv (List.mem_cons_of_mem _ hm))

/-! ### Claim theorems -/

/-- C1: every library function called with a negative value for a
principal, rate, time, or amount parameter fails with `InvalidArgument`
and never returns a computed value: `compound_interest` with
`principal < 0`, `rate < 0` or `time < 0`; `monthly_payment` with
`principal < 0`, `annual_rate < 0` or `years < 0`; `investment_return`
with any negative input; `portfolio_value` with some investment amount
negative; `future_value_annuity` with any negative input. -/
theorem negative_inputs_fail :
    (∀ p r t n : ℚ, p < 0 ∨ r < 0 ∨ t < 0 →
      compound_interest p r t n =
        .error (.invalidArgument "Values must be non-negative, n must be positive")) ∧
    (∀ (p r : ℚ) (y : ℤ), p < 0 ∨ r < 0 ∨ y < 0 →
      monthly_payment p r y =
        .error (.invalidArgument "Principal and years must be positive, rate non-negative")) ∧
    (∀ i f y : ℚ, i < 0 ∨ f < 0 ∨ y < 0 →
      investment_return i f y = .error (.invalidArgument "All values must be positive")) ∧
    (∀ invs : List Investment, (∃ inv ∈ invs, inv.amount < 0) →
      portfolio_value invs =
        .error (.invalidArgument "Investment amount cannot be negative")) ∧
    (∀ (p r : ℚ) (k : ℤ), p < 0 ∨ r < 0 ∨ k < 0 →
      future_value_annuity p r k =
        .error (.invalidArgument "All values must be non-negative")) := by
  refine ⟨?_, ?_, ?_, ?_, ?_⟩
  · intro p r t n h
    unfold compound_interest
    rcases h with h | h | h
    exacts [if_pos (Or.inl h), if_pos (Or.inr (Or.inl h)),
      if_pos (Or.inr (Or.inr (Or.inl h)))]
  · intro p r y h
    unfold monthly_payment
    rcases h with h | h | h
    · rw [if_pos (Or.inl h.le)]
    · rw [if_pos (Or.inr (Or.inl h))]
    · rw [if_pos (Or.inr (Or.inr h.le))]
  · intro i f y h
    unfold investment_return
    rcases h with h | h | h
    exacts [if_pos (Or.inl h.le), if_pos (Or.inr (Or.inl h.le)),
      if_pos (Or.inr (Or.inr h.le))]
  · intro invs h
    have hne : invs ≠ [] := by
      rintro rfl
      rcases h with ⟨inv, hm, -⟩
      exact absurd hm (List.not_mem_nil inv)
    unfold portfolio_value
    rw [if_neg hne, portfolioScan_negAmount invs _ h]
  · intro p r k h
    unfold future_value_annuity
    exact if_pos h

/-- C1 witness: concrete negative inputs to each of the five functions. -/
theorem negative_inputs_fail_w :
    compound_interest (-1000) (1/20) 2 1 =
      .error (.invalidArgument "Values must be non-negative, n must be positive") ∧
    monthly_payment 1000 (-1/100) 10 =
      .error (.invalidArgument "Principal and years must be positive, rate non-negative") ∧
    investment_return (-1) 2 1 = .error (.invalidArgument "All values must be positive") ∧
    portfolio_value [⟨-500, 5⟩] =
      .error (.invalidArgument "Investment amount cannot be negative") ∧
    future_value_annuity (-1) 0 1 = .error (.invalidArgument "All values must be non-negative") :=
  ⟨negative_inputs_fail.1 (-1000) (1/20) 2 1 (Or.inl (by norm_num)),
   negative_inputs_fail.2.1 1000 (-1/100) 10 (Or.inr (Or.inl (by norm_num))),
   negative_inputs_fail.2.2.1 (-1) 2 1 (Or.inl (by norm_num)),
   negative_inputs_fail.2.2.2.1 [⟨-500, 5⟩] ⟨⟨-500, 5⟩, by simp, by norm_num⟩,
   negative_inputs_fail.2.2.2.2 (-1) 0 1 (Or.inl (by norm_num))⟩

/-- C2 counterexample: `compound_interest` with the fractional
`compounds_per_year` value 5/2 = 2.5 (and otherwise valid inputs) does
not fail: the source checks only `n <= 0`, never that `n` is an integer,
so the call returns a computed amount. -/
theorem compound_interest_frac_n_computes :
    fails (compound_interest 1000 (1/20) 2 (5/2)) = false := by
  unfold compound_interest
  rw [if_neg (by norm_num)]
  rfl

/-- C2 amended: `compound_interest` fails with `InvalidArgument` whenever
`compounds_per_year ≤ 0`; any numeric `compounds_per_year > 0` — fractional
values included — is accepted, and with otherwise valid inputs an amount
is computed. -/
theorem compound_interest_n_guard (p r t n : ℚ) :
    (n ≤ 0 → compound_interest p r t n =
      .error (.invalidArgument "Values must be non-negative, n must be positive")) ∧
    (0 ≤ p → 0 ≤ r → 0 ≤ t → 0 < n → fails (compound_interest p r t n) = false) := by
  constructor
  · intro hn
    unfold compound_interest
    exact if_pos (Or.inr (Or.inr (Or.inr hn)))
  · intro hp hr ht hn
    unfold compound_interest
    rw [if_neg (by push_neg; exact ⟨hp, hr, ht, hn⟩)]
    rfl

/-- C2 witness: `n = 0` is rejected; the fractional `n = 3/2` is accepted. -/
theorem compound_interest_n_guard_w :
    compound_interest 1 (1/10) 1 0 =
      .error (.invalidArgument "Values must be non-negative, n must be positive") ∧
    fails (compound_interest 1000 (1/10) 2 (3/2)) = false :=
  ⟨(compound_interest_n_guard 1 (1/10) 1 0).1 le_rfl,
   (compound_interest_n_guard 1000 (1/10) 2 (3/2)).2
     (by norm_num) (by norm_num) (by norm_num) (by norm_num)⟩

set_option maxRecDepth 1000000 in
/-- C3: `monthly_payment(200000, 0.04, 30)` — monthly rate 1/300 and 360
payments — returns exactly 954.83 in exact rational arithmetic. -/
theorem monthly_payment_mortgage_value :
    monthly_payment 200000 (1/25) 30 = .ok (95483/100) := by
  with_unfolding_all rfl

/-- C4: for every non-empty investments list in which every amount is 0,
`portfolio_value` returns exactly `{total_value: 0.0, weighted_avg_return: 0.0}`
(the `total == 0` guard fires, so the division `weighted/total` is never
reached). -/
theorem portfolio_all_zero_amounts (invs : List Investment) (hne : invs ≠ [])
    (hz : ∀ inv ∈ invs, inv.amount = 0) :
    portfolio_value invs = .ok ⟨0, 0⟩ := by
  unfold portfolio_value
  rw [if_neg hne, portfolioScan_allZero invs (0, 0) hz]
  exact if_pos rfl

/-- C4 witness: a two-element all-zero-amount portfolio. -/
theorem portfolio_all_zero_amounts_w :
    portfolio_value [⟨0, 5⟩, ⟨0, -3⟩] = .ok ⟨0, 0⟩ :=
  portfolio_all_zero_amounts [⟨0, 5⟩, ⟨0, -3⟩] (by simp) (by decide)

/-- C5: for every non-empty constant returns list, `risk_assessment`
reports volatility 0.0 and Sharpe ratio 0.0 (the mean is the constant,
the variance vanishes, and the zero-volatility guard returns 0 instead
of dividing). -/
theorem risk_constant (c : ℚ) (l : List ℚ) (hne : l ≠ []) (hc : ∀ r ∈ l, r = c) :
    risk_assessment l = .ok ⟨((round2 c : ℚ) : ℝ), 0, 0⟩ := by
  have hrep : l = List.replicate l.length c := List.eq_replicate_iff.2 ⟨rfl, hc⟩
  have hn : l.length ≠ 0 := by simpa using hne
  have hnQ : (l.length : ℚ) ≠ 0 := Nat.cast_ne_zero.2 hn
  have hsum : l.sum = (l.length : ℚ) * c := by
    conv_lhs => rw [hrep, List.sum_replicate, nsmul_eq_mul]
  have hmean : l.sum / (l.length : ℚ) = c := by
    rw [hsum, mul_comm, mul_div_assoc, div_self hnQ, mul_one]
  have hvar : (l.map (fun r => (r - c) ^ 2)).sum = 0 := by
    conv_lhs => rw [hrep]
    rw [List.map_replicate, List.sum_replicate]
    simp
  simp only [risk_assessment, if_neg hne, hmean, hvar]
  simp [round2R_zero]

/-- C5 witness: `risk_assessment([5.0, 5.0, 5.0, 5.0])` returns mean 5.0,
volatility 0.0, Sharpe ratio 0.0. -/
theorem risk_constant_w :
    risk_assessment [5, 5, 5, 5] = .ok ⟨5, 0, 0⟩ := by
  have h := risk_constant 5 [5, 5, 5, 5] (by simp) (by decide)
  rw [h]
  have h5 : round2 (5 : ℚ) = 5 := by with_unfolding_all rfl
  rw [h5]
  norm_num

/-- C6: for every single-element returns list `[r]`, `risk_assessment`
takes the `n == 1` branch (variance 0, no `(n-1)` division), so it
returns mean `round(r, 2)`, volatility 0.0 and Sharpe ratio 0.0. -/
theorem risk_single (r : ℚ) :
    risk_assessment [r] = .ok ⟨((round2 r : ℚ) : ℝ), 0, 0⟩ := by
  simp [risk_assessment, round2R_zero]

/-- C7: with a zero annual rate and valid inputs, `monthly_payment`
returns `principal / (years*12)` rounded to 2 decimals, bypassing the
amortization formula. -/
theorem monthly_payment_zero_rate (p : ℚ) (y : ℤ) (hp : 0 < p) (hy : 0 < y) :
    monthly_payment p 0 y = .ok (round2 (p / ((y : ℚ) * 12))) := by
  unfold monthly_payment
  rw [if_neg (by push_neg; exact ⟨hp, le_refl 0, hy⟩), if_pos rfl]

/-- C7 witness: `monthly_payment(12000, 0, 2)` is 500.0. -/
theorem monthly_payment_zero_rate_w : monthly_payment 12000 0 2 = .ok 500 := by
  have h := monthly_payment_zero_rate 12000 2 (by norm_num) (by norm_num)
  rw [h]
  with_unfolding_all rfl

/-- C8: on the empty list, both `portfolio_value` and `risk_assessment`
fail with `InvalidArgument` before any computation. -/
theorem empty_sequence_fails :
    portfolio_value [] = .error (.invalidArgument "Investments must be a non-empty list") ∧
    risk_assessment [] = .error (.invalidArgument "Returns must be a non-empty list") :=
  ⟨by unfold portfolio_value; exact if_pos rfl,
   by unfold risk_assessment; exact if_pos rfl⟩

/-- C9: on numeric operands, `add_numbers` and `subtract_numbers` return
the exact sum and difference (no rounding), preserving the numeric kind
(two ints give an int, any float gives a float); any non-numeric operand
fails with `InvalidArgument`. -/
theorem legacy_exact (x y : PyVal) :
    (PyVal.isNumber x = true → PyVal.isNumber y = true →
      add_numbers x y = .ok (pyAdd x y) ∧
      subtract_numbers x y = .ok (pySub x y) ∧
      PyVal.toRat (pyAdd x y) = PyVal.toRat x + PyVal.toRat y ∧
      PyVal.toRat (pySub x y) = PyVal.toRat x - PyVal.toRat y ∧
      (PyVal.isInt x = true → PyVal.isInt y = true →
        PyVal.isInt (pyAdd x y) = true ∧ PyVal.isInt (pySub x y) = true) ∧
      (PyVal.isFloat x = true ∨ PyVal.isFloat y = true →
        PyVal.isFloat (pyAdd x y) = true ∧ PyVal.isFloat (pySub x y) = true)) ∧
    (¬(PyVal.isNumber x = true ∧ PyVal.isNumber y = true) →
      fails (add_numbers x y) = true ∧ fails (subtract_numbers x y) = true) := by
  constructor
  · intro hx hy
    rcases x with a | q | s | _ <;> rcases y with b | p | t | _ <;>
      simp_all [add_numbers, subtract_numbers, pyAdd, pySub, PyVal.isNumber,
        PyVal.toRat, PyVal.isInt, PyVal.isFloat]
  · intro h
    rcases x with a | q | s | _ <;> rcases y with b | p | t | _ <;>
      simp_all [add_numbers, subtract_numbers, PyVal.isNumber, fails]

/-- C9 witness: two ints are added exactly; a non-numeric operand fails. -/
theorem legacy_exact_w :
    add_numbers (.int 2) (.int 3) = .ok (pyAdd (.int 2) (.int 3)) ∧
    fails (add_numbers .none (.int 1)) = true :=
  ⟨((legacy_exact (.int 2) (.int 3)).1 rfl rfl).1,
   ((legacy_exact .none (.int 1)).2 (by simp [PyVal.isNumber])).1⟩

/-- C10: with valid `payment ≥ 0` and `rate ≥ 0`, zero periods yield a
zero future value (`payment * 0` in the zero-rate branch, and
`((1+rate)^0 - 1)/rate = 0` otherwise). -/
theorem fva_zero_periods (p r : ℚ) (hp : 0 ≤ p) (hr : 0 ≤ r) :
    future_value_annuity p r 0 = .ok 0 := by
  unfold future_value_annuity
  rw [if_neg (by push_neg; exact ⟨hp, hr, le_refl 0⟩)]
  by_cases h : r = 0
  · rw [if_pos h]
    simp [round2_zero]
  · rw [if_neg h]
    simp [round2_zero]

/-- C10 witness: `future_value_annuity(1000, 0.05, 0)` is 0. -/
theorem fva_zero_periods_w : future_value_annuity 1000 (1/20) 0 = .ok 0 :=
  fva_zero_periods 1000 (1/20) (by norm_num) (by norm_num)

end FinCalc
